import Mathlib

/-!
Verification of scanet9/SCVMongoFramework.

Shallow embedding of the two components of the repository:

* the HTTP middleware in `utils` (`JWTMiddleware`, `HandlerFuncErrorHandling`,
  both in the source file embedded here from `src/unnamed/part_001`), and
* the generic Mongo repository adapter in `infrastructure`
  (`MongoRepository.GetByID` / `Update` / `Delete`), whose implementation file
  is not part of the provided sources; it is modelled from the spec and pinned
  by its test suite (`src/unnamed/part_002`).

External collaborators (the `jwt-go` library and the Mongo driver) are modelled
as explicit environments: oracles supplying the outcome of each library call,
so that the code under verification is quantified over every possible library
behaviour.  Both the middleware and the repository adapter additionally return
an explicit trace of the external calls they performed, used to settle the
"no database call is attempted" and "no token is parsed" parts of the claims.
-/

/-! ## Common data -/

/-- Claims payload of a decoded token (`jwt.MapClaims`): opaque key-value data. -/
abbrev TokenClaims : Type := List (String × String)

/-- An HTTP request, reduced to what the embedded code reads from it:
the result of `r.Header.Get "authorization"`, which in Go is the empty
string when the header is absent. -/
structure Request where
  authHeader : String
deriving DecidableEq

/-- One response emission: `ResponseError(w, r, status, message)` writes a
status code and a message body.  Embeds `utils.ResponseError`. -/
structure Write where
  status : Nat
  message : String
deriving DecidableEq

/-! ## JWT library boundary

`dgrijalva/jwt-go` is out of scope for the repository (spec section 6 treats it
as an opaque parse-and-verify capability).  `JwtEnv` is the oracle describing
one possible behaviour of the library on each token string: whether the string
is structurally well formed, which signing method its header declares, whether
its signature verifies against a given key, and whether the library marks the
parsed token valid. -/

/-- Signing method declared in a token header, as inspected by the key
function in `JWTMiddleware`: either the symmetric `jwt.SigningMethodHMAC`
family, or anything else. -/
inductive SigningMethod where
  | hmac
  | nonHMAC
deriving DecidableEq

/-- A structurally parsed token: its declared signing method and its claims. -/
structure JwtToken where
  method : SigningMethod
  claims : TokenClaims
deriving DecidableEq

/-- Oracle for the behaviour of `jwt.Parse` on token strings. -/
structure JwtEnv where
  /-- Structural parsing of the token string; `.error e` is a malformed token,
  with `e` the message of the error the library reports. -/
  parseStructure : String → Except String JwtToken
  /-- Whether the token string's signature verifies against a given key. -/
  verify : String → String → Bool
  /-- Message of the validation error the library reports when signature
  verification fails. -/
  verifyErrMsg : String
  /-- Whether the library marks the fully parsed token as `Valid`. -/
  valid : String → Bool

/-- The key function passed by `JWTMiddleware` to `jwt.Parse`: reject any
token whose method is not `*jwt.SigningMethodHMAC` with the error
`"there was an error"`, otherwise hand the shared secret to the library
as the verification key. -/
def jwtKeyfunc (secret : String) (token : JwtToken) : Except String String :=
  match token.method with
  | .hmac => .ok secret
  | .nonHMAC => .error "there was an error"

/-- Result of `jwt.Parse`: the returned error (if any), the `Valid` flag and
the claims of the parsed token. -/
structure ParseResult where
  err : Option String
  valid : Bool
  claims : TokenClaims
deriving DecidableEq

/-- Behaviour of `jwt.Parse(tokenString, keyfunc)` under oracle `env`:
structural parse, then the key function (an error from it is returned by
`Parse`), then signature verification with the returned key; when no error
arose, the `Valid` flag is whatever the library computed (`env.valid`). -/
def jwtParse (env : JwtEnv) (secret tokenString : String) : ParseResult :=
  match env.parseStructure tokenString with
  | .error e => ⟨some e, false, []⟩
  | .ok tok =>
    match jwtKeyfunc secret tok with
    | .error e => ⟨some e, false, tok.claims⟩
    | .ok key =>
      if env.verify tokenString key then
        ⟨none, env.valid tokenString, tok.claims⟩
      else
        ⟨some env.verifyErrMsg, false, tok.claims⟩

/-! ## strings.Split -/

/-- Go `strings.Split(s, " ")` on the underlying character list: split at every
single space character, keeping empty fields. -/
def splitOnSpace : List Char → List (List Char)
  | [] => [[]]
  | c :: rest =>
    let r := splitOnSpace rest
    if c = ' ' then [] :: r
    else
      match r with
      | [] => [[c]]
      | h :: t => (c :: h) :: t

/-- Go `strings.Split(s, " ")`. -/
def goSplitSpace (s : String) : List String :=
  (splitOnSpace s.data).map String.mk

/-! ## JWTMiddleware -/

/-- Observable outcome of one middleware invocation: either a rejection
written through `ResponseError`, or the wrapped handler was invoked with the
given claims attached to the request context (`context.Set(r, "decoded", ...)`). -/
inductive MwOutcome where
  | reject (status : Nat) (message : String)
  | handled (decoded : TokenClaims)
deriving DecidableEq

/-- Outcome of the middleware together with the trace of token strings it
handed to `jwt.Parse`. -/
structure MwResult where
  outcome : MwOutcome
  parsedTokens : List String
deriving DecidableEq

/-- Embeds `utils.JWTMiddleware` (src/unnamed/part_001, lines 14-41): read the
`authorization` header; if empty, reject 401 with the fixed message; split on
spaces and require exactly two fields, else reject 401 with the fixed format
message; parse the second field with `jwt.Parse` and the HMAC-only key
function; a parse error is rejected 401 with the error text; an invalid token
is rejected 401 with `"invalid authorization token"`; otherwise the claims are
attached and the wrapped handler runs. -/
def JWTMiddleware (env : JwtEnv) (secret : String) (r : Request) : MwResult :=
  let authorizationHeader := r.authHeader
  if authorizationHeader ≠ "" then
    let bearerToken := goSplitSpace authorizationHeader
    if bearerToken.length = 2 then
      let tokenString := bearerToken.getD 1 ""
      let res := jwtParse env secret tokenString
      match res.err with
      | some e => ⟨.reject 401 e, [tokenString]⟩
      | none =>
        if res.valid then
          ⟨.handled res.claims, [tokenString]⟩
        else
          ⟨.reject 401 "invalid authorization token", [tokenString]⟩
    else
      ⟨.reject 401 "authorization header not properly formated, should be Bearer + {token}", []⟩
  else
    ⟨.reject 401 "an authorization header is required", []⟩

/-! ## HandlerFuncErrorHandling -/

/-- A value recovered from a panic, as discriminated by the type switch in
`HandlerFuncErrorHandling`: an `error` (carrying its `Error()` text), a
`string`, or any other value. -/
inductive PanicValue where
  | err (msg : String)
  | str (s : String)
  | other
deriving DecidableEq

/-- Behaviour of a wrapped `http.HandlerFunc` on a request: the response
writes it performed before terminating, and `some v` when it terminated by
panicking with value `v` (`none` for a normal return). -/
def Handler : Type := Request → List Write × Option PanicValue

/-- Embeds `utils.HandlerFuncErrorHandling` (src/unnamed/part_001, lines
45-63): run the wrapped handler; the deferred function recovers a panic, maps
its value to a message (`Error()` text for an `error`, the string itself for a
`string`, `"unknown error ocurred"` otherwise) and appends a 500
`ResponseError` write; on a normal return nothing is added. -/
def HandlerFuncErrorHandling (next : Handler) (r : Request) : List Write :=
  let run := next r
  match run.2 with
  | none => run.1
  | some rec =>
    let errorMessage :=
      match rec with
      | .err m => m
      | .str s => s
      | .other => "unknown error ocurred"
    run.1 ++ [⟨500, errorMessage⟩]

/-! ## Mongo repository adapter

The implementation file of `infrastructure.MongoRepository` is not among the
provided sources; only the `Repository` interface (src/unnamed/part_000) and
the test suite (src/unnamed/part_002) are.  The operations below are modelled
from the spec (sections 3, 4.1, 7, 8) with the driver-response handling pinned
by the tests: `TestUpdate_OK` succeeds on a driver reply with `nModified = 1`,
`TestUpdate_NotUpdatedError` expects `mongo.ErrNoDocuments` on `nModified = 0`,
`TestDelete_NotDeletedError` expects `mongo.ErrNoDocuments` on `n = 0`, and the
three `_InvalidID` tests expect an error on the identifier `"invalid-id"`. -/

/-- A native Mongo object identifier, abstracted as the validated 24-character
hexadecimal form turned into its character list. -/
abbrev ObjectId : Type := List Char

/-- Whether a string is a well-formed hexadecimal digit, as accepted by
`primitive.ObjectIDFromHex`. -/
def isHexDigit (c : Char) : Bool :=
  (c.isDigit || (('a' ≤ c) && (c ≤ 'f'))) || (('A' ≤ c) && (c ≤ 'F'))

/-- Whether a string is convertible to a native object identifier:
exactly 24 characters, all hexadecimal. -/
def isValidObjectIDHex (s : String) : Bool :=
  decide (s.length = 24) && s.data.all isHexDigit

/-- Modelled from the spec: `primitive.ObjectIDFromHex` of the Mongo driver
(the identifier-conversion boundary, spec section 3: a string-encoded key
"must be convertible to the database's native identifier encoding (e.g., a
fixed-length hexadecimal form); conversion failure is a validation error").
Returns the native identifier, or the driver's conversion error. -/
def ObjectIDFromHex (s : String) : Except String ObjectId :=
  if isValidObjectIDHex s then .ok s.data
  else .error "the provided hex string is not a valid ObjectID"

/-- Error outcomes of a repository operation, following the error taxonomy of
spec section 7. -/
inductive RepoError where
  /-- `InvalidIdentifierError`: malformed identifier, detected before any
  database call; carries the conversion error text. -/
  | invalidID (msg : String)
  /-- `NotFoundError`: `mongo.ErrNoDocuments`, the distinguished no-match
  signal. -/
  | noDocuments
  /-- `PersistenceError` / `QueryError`: the underlying database operation
  failed; surfaced verbatim. -/
  | dbFailure (msg : String)
deriving DecidableEq

/-- A database round trip performed by a repository operation, recorded with
the identifier it addressed. -/
inductive DBCall where
  | findOne (oid : ObjectId)
  | updateOne (oid : ObjectId)
  | deleteOne (oid : ObjectId)
deriving DecidableEq

/-- Failure reported by the driver's single-document lookup: either the
distinguished `mongo.ErrNoDocuments` or some other failure. -/
inductive FindErr where
  | noDocuments
  | failure (msg : String)
deriving DecidableEq

/-- Driver reply to a successful `UpdateOne`: the documents-modified counter
(`nModified`) and the documents-matched counter. -/
structure UpdateResult where
  modifiedCount : Nat
  matchedCount : Nat
deriving DecidableEq

/-- Driver reply to a successful `DeleteOne`: the documents-removed counter
(`n`). -/
structure DeleteResult where
  deletedCount : Nat
deriving DecidableEq

/-- Oracle for the Mongo collection capability set used by the adapter
(spec section 6), for entities of shape `α`. -/
structure MongoEnv (α : Type) where
  /-- `FindOne(...).Decode`: the decoded entity, or a lookup failure. -/
  findOne : ObjectId → Except FindErr α
  /-- `UpdateOne` by identifier with the new entity value: the update result,
  or an operation failure. -/
  updateOne : ObjectId → α → Except String UpdateResult
  /-- `DeleteOne` by identifier: the delete result, or an operation failure. -/
  deleteOne : ObjectId → Except String DeleteResult

namespace MongoRepository

/-- Modelled from the spec: `infrastructure.MongoRepository.GetByID`
(implementation file absent from the sources; spec section 4.1: convert the
identifier — failing with `InvalidIdentifierError` before any database call —
then look the document up, propagating the no-documents signal as
`NotFoundError` and any other failure as `QueryError`).  Returns the trace of
database calls performed alongside the result. -/
def GetByID {α : Type} (env : MongoEnv α) (ID : String) :
    List DBCall × Except RepoError α :=
  match ObjectIDFromHex ID with
  | .error e => ([], .error (.invalidID e))
  | .ok objectID =>
    ([.findOne objectID],
      match env.findOne objectID with
      | .error .noDocuments => .error .noDocuments
      | .error (.failure m) => .error (.dbFailure m)
      | .ok entity => .ok entity)

/-- Modelled from the spec: `infrastructure.MongoRepository.Update`
(implementation file absent from the sources; spec sections 4.1 and 8, with
the zero-modified policy pinned by `TestUpdate_OK` and
`TestUpdate_NotUpdatedError`: a driver reply with `nModified = 1` is success
and one with `nModified = 0` is `mongo.ErrNoDocuments`, so the adapter checks
the modified counter).  Returns the trace of database calls performed
alongside the error, if any. -/
def Update {α : Type} (env : MongoEnv α) (ID : String) (entity : α) :
    List DBCall × Option RepoError :=
  match ObjectIDFromHex ID with
  | .error e => ([], some (.invalidID e))
  | .ok objectID =>
    ([.updateOne objectID],
      match env.updateOne objectID entity with
      | .error m => some (.dbFailure m)
      | .ok result =>
        if result.modifiedCount = 0 then some .noDocuments else none)

/-- Modelled from the spec: `infrastructure.MongoRepository.Delete`
(implementation file absent from the sources; spec section 4.1: same
three-way outcome structure as `Update`, with zero documents removed reported
as `NotFoundError`, pinned by `TestDelete_NotDeletedError`: a driver reply
with `n = 0` is `mongo.ErrNoDocuments`).  Returns the trace of database calls
performed alongside the error, if any. -/
def Delete {α : Type} (env : MongoEnv α) (ID : String) :
    List DBCall × Option RepoError :=
  match ObjectIDFromHex ID with
  | .error e => ([], some (.invalidID e))
  | .ok objectID =>
    ([.deleteOne objectID],
      match env.deleteOne objectID with
      | .error m => some (.dbFailure m)
      | .ok result =>
        if result.deletedCount = 0 then some .noDocuments else none)

end MongoRepository

/-! ## Concrete instances used by witnesses and counterexamples -/

/-- A jwt-library oracle that rejects every token string as malformed. -/
def jwtEnvRejecting : JwtEnv :=
  ⟨fun _ => .error "token contains an invalid number of segments",
   fun _ _ => false, "signature is invalid", fun _ => false⟩

/-- A jwt-library oracle that parses every token string as a well-formed HMAC
token, verifies every signature and marks every token valid. -/
def jwtEnvAccepting : JwtEnv :=
  ⟨fun _ => .ok ⟨.hmac, [("user", "u1")]⟩,
   fun _ _ => true, "signature is invalid", fun _ => true⟩

/-- A jwt-library oracle that parses and verifies every token string but marks
every token invalid. -/
def jwtEnvMarkingInvalid : JwtEnv :=
  ⟨fun _ => .ok ⟨.hmac, [("user", "u1")]⟩,
   fun _ _ => true, "signature is invalid", fun _ => false⟩

/-- A jwt-library oracle that parses every token string as a well-formed HMAC
token but fails every signature verification. -/
def jwtEnvRejectingSig : JwtEnv :=
  ⟨fun _ => .ok ⟨.hmac, [("user", "u1")]⟩,
   fun _ _ => false, "signature is invalid", fun _ => true⟩

/-- A jwt-library oracle whose tokens declare a non-HMAC signing method. -/
def jwtEnvNonHMAC : JwtEnv :=
  ⟨fun _ => .ok ⟨.nonHMAC, [("user", "u1")]⟩,
   fun _ _ => true, "signature is invalid", fun _ => true⟩

/-- A driver oracle whose `UpdateOne` reports success with one matched
document (the document existed) but zero modified documents (value
unchanged), and whose other calls succeed affecting one document. -/
def mongoEnvUnchangedUpdate : MongoEnv Unit :=
  ⟨fun _ => .ok (), fun _ _ => .ok ⟨0, 1⟩, fun _ => .ok ⟨1⟩⟩

/-- A driver oracle whose `DeleteOne` reports success with zero documents
removed, and whose other calls succeed affecting one document. -/
def mongoEnvZeroDelete : MongoEnv Unit :=
  ⟨fun _ => .ok (), fun _ _ => .ok ⟨1, 1⟩, fun _ => .ok ⟨0⟩⟩

/-- A driver oracle where every call succeeds affecting one document. -/
def mongoEnvAllOk : MongoEnv Unit :=
  ⟨fun _ => .ok (), fun _ _ => .ok ⟨1, 1⟩, fun _ => .ok ⟨1⟩⟩

/-- A handler that writes nothing and panics with a non-error, non-string
value. -/
def handlerPanicOther : Handler := fun _ => ([], some .other)

/-- A handler that writes one 200 response and panics with an `error` whose
text is `"boom"`. -/
def handlerPanicErr : Handler := fun _ => ([⟨200, "ok"⟩], some (.err "boom"))

/-- A handler that writes one 200 response and returns normally. -/
def handlerNormal : Handler := fun _ => ([⟨200, "ok"⟩], none)

/-! ## Helper lemmas -/

/-- When the authorization header splits into exactly two fields, the
middleware parses the second field and dispatches on the parse result. -/
theorem jwtMiddleware_of_split_pair (env : JwtEnv) (secret : String) (r : Request)
    (t1 t2 : String) (hsplit : goSplitSpace r.authHeader = [t1, t2]) :
    JWTMiddleware env secret r =
      match (jwtParse env secret t2).err with
      | some e => ⟨.reject 401 e, [t2]⟩
      | none =>
        if (jwtParse env secret t2).valid then
          ⟨.handled (jwtParse env secret t2).claims, [t2]⟩
        else
          ⟨.reject 401 "invalid authorization token", [t2]⟩ := by
  have hne : r.authHeader ≠ "" := by
    intro h
    rw [h] at hsplit
    simp [goSplitSpace, splitOnSpace] at hsplit
  unfold JWTMiddleware
  simp only [hsplit, hne, ne_eq, not_false_eq_true, if_true, List.length_cons,
    List.length_nil, List.getD, List.get?, if_pos rfl, Option.getD_some]

/-! ## Claims about JWTMiddleware -/

/-- C8 (amended): for every request with no authorization header (the header
read is the empty string), `JWTMiddleware` rejects with 401 and the fixed
message `"an authorization header is required"` (no trailing period in the
source), parses no token and never invokes the wrapped handler. -/
theorem jwtMiddleware_missing_header_rejects (env : JwtEnv) (secret : String)
    (r : Request) (h : r.authHeader = "") :
    JWTMiddleware env secret r =
      ⟨.reject 401 "an authorization header is required", []⟩ := by
  unfold JWTMiddleware
  simp [h]

/-- Witness for C8's amended theorem: a concrete request with an empty
authorization header is rejected with the fixed message. -/
theorem jwtMiddleware_missing_header_rejects_witness :
    JWTMiddleware jwtEnvRejecting "secret" ⟨""⟩ =
      ⟨.reject 401 "an authorization header is required", []⟩ :=
  jwtMiddleware_missing_header_rejects jwtEnvRejecting "secret" ⟨""⟩ rfl

/-- Counterexample for C8 as stated: the rejection message of the code has no
trailing period, so it is not the claimed string
`"an authorization header is required."`. -/
theorem jwtMiddleware_missing_header_message_cex :
    (JWTMiddleware jwtEnvRejecting "secret" ⟨""⟩).outcome =
        .reject 401 "an authorization header is required" ∧
    (JWTMiddleware jwtEnvRejecting "secret" ⟨""⟩).outcome ≠
        .reject 401 "an authorization header is required." := by
  constructor
  · decide
  · decide

/-- C7: for every request whose non-empty authorization header does not split
into exactly two space-separated fields, `JWTMiddleware` rejects with 401 and
the fixed format-error message, hands no token string to `jwt.Parse` (empty
parse trace, for every possible library behaviour) and never invokes the
wrapped handler. -/
theorem jwtMiddleware_malformed_header_rejects (env : JwtEnv) (secret : String)
    (r : Request) (hne : r.authHeader ≠ "")
    (hlen : (goSplitSpace r.authHeader).length ≠ 2) :
    JWTMiddleware env secret r =
      ⟨.reject 401 "authorization header not properly formated, should be Bearer + {token}",
        []⟩ := by
  unfold JWTMiddleware
  simp [hne, hlen]

/-- Witness for C7: a one-field header is rejected with the format message. -/
theorem jwtMiddleware_malformed_header_rejects_witness :
    JWTMiddleware jwtEnvRejecting "secret" ⟨"abc"⟩ =
      ⟨.reject 401 "authorization header not properly formated, should be Bearer + {token}",
        []⟩ :=
  jwtMiddleware_malformed_header_rejects jwtEnvRejecting "secret" ⟨"abc"⟩
    (by decide) (by decide)

/-- C5: for every request whose token parses without error, `JWTMiddleware`
invokes the wrapped handler with the token's claims attached when the token is
marked valid, and rejects with 401 and message
`"invalid authorization token"` (never invoking the handler) when the token is
marked invalid. -/
theorem jwtMiddleware_parsed_token_dispatch (env : JwtEnv) (secret : String)
    (r : Request) (t1 t2 : String) (hsplit : goSplitSpace r.authHeader = [t1, t2])
    (herr : (jwtParse env secret t2).err = none) :
    ((jwtParse env secret t2).valid = true →
      JWTMiddleware env secret r =
        ⟨.handled (jwtParse env secret t2).claims, [t2]⟩) ∧
    ((jwtParse env secret t2).valid = false →
      JWTMiddleware env secret r =
        ⟨.reject 401 "invalid authorization token", [t2]⟩) := by
  rw [jwtMiddleware_of_split_pair env secret r t1 t2 hsplit]
  constructor
  · intro hv
    simp [herr, hv]
  · intro hv
    simp [herr, hv]

/-- Witness for C5: with a library that accepts the token the handler runs
with the claims attached; with one that marks it invalid the request is
rejected with 401. -/
theorem jwtMiddleware_parsed_token_dispatch_witness :
    JWTMiddleware jwtEnvAccepting "s" ⟨"Bearer tok"⟩ =
        ⟨.handled [("user", "u1")], ["tok"]⟩ ∧
    JWTMiddleware jwtEnvMarkingInvalid "s" ⟨"Bearer tok"⟩ =
        ⟨.reject 401 "invalid authorization token", ["tok"]⟩ :=
  ⟨(jwtMiddleware_parsed_token_dispatch jwtEnvAccepting "s" ⟨"Bearer tok"⟩
      "Bearer" "tok" (by decide) (by decide)).1 (by decide),
   (jwtMiddleware_parsed_token_dispatch jwtEnvMarkingInvalid "s" ⟨"Bearer tok"⟩
      "Bearer" "tok" (by decide) (by decide)).2 (by decide)⟩

/-- C6: for every request whose token declares a non-HMAC signing method, or
whose signature does not verify against the configured secret, `JWTMiddleware`
rejects with 401 carrying the underlying validation error text (the key
function's `"there was an error"` for a non-HMAC method, the library's
verification error otherwise) and never invokes the wrapped handler. -/
theorem jwtMiddleware_unverified_token_rejected (env : JwtEnv) (secret : String)
    (r : Request) (t1 t2 : String) (tok : JwtToken)
    (hsplit : goSplitSpace r.authHeader = [t1, t2])
    (htok : env.parseStructure t2 = .ok tok) :
    (tok.method = .nonHMAC →
      JWTMiddleware env secret r = ⟨.reject 401 "there was an error", [t2]⟩) ∧
    (tok.method = .hmac → env.verify t2 secret = false →
      JWTMiddleware env secret r = ⟨.reject 401 env.verifyErrMsg, [t2]⟩) := by
  rw [jwtMiddleware_of_split_pair env secret r t1 t2 hsplit]
  constructor
  · intro hm
    simp [jwtParse, htok, jwtKeyfunc, hm]
  · intro hm hv
    simp [jwtParse, htok, jwtKeyfunc, hm, hv]

/-- Witness for C6: a non-HMAC token is rejected with the key function's error
text; an HMAC token whose signature does not verify is rejected with the
library's verification error text. -/
theorem jwtMiddleware_unverified_token_rejected_witness :
    JWTMiddleware jwtEnvNonHMAC "s" ⟨"Bearer tok"⟩ =
        ⟨.reject 401 "there was an error", ["tok"]⟩ ∧
    JWTMiddleware jwtEnvRejectingSig "s" ⟨"Bearer tok"⟩ =
        ⟨.reject 401 "signature is invalid", ["tok"]⟩ :=
  ⟨(jwtMiddleware_unverified_token_rejected jwtEnvNonHMAC "s" ⟨"Bearer tok"⟩
      "Bearer" "tok" ⟨.nonHMAC, [("user", "u1")]⟩ (by decide) rfl).1 rfl,
   (jwtMiddleware_unverified_token_rejected jwtEnvRejectingSig "s" ⟨"Bearer tok"⟩
      "Bearer" "tok" ⟨.hmac, [("user", "u1")]⟩ (by decide) rfl).2 rfl rfl⟩

/-- C9: `JWTMiddleware` never inspects the first of the two space-separated
header fields: whenever the second field is a token the library parses as
HMAC-signed, verifies against the secret and marks valid, the wrapped handler
is invoked with the claims attached, with no condition on the first field. -/
theorem jwtMiddleware_first_token_ignored (env : JwtEnv) (secret : String)
    (r : Request) (t1 t2 : String) (tok : JwtToken)
    (hsplit : goSplitSpace r.authHeader = [t1, t2])
    (htok : env.parseStructure t2 = .ok tok) (hm : tok.method = .hmac)
    (hver : env.verify t2 secret = true) (hval : env.valid t2 = true) :
    JWTMiddleware env secret r = ⟨.handled tok.claims, [t2]⟩ := by
  rw [jwtMiddleware_of_split_pair env secret r t1 t2 hsplit]
  simp [jwtParse, htok, jwtKeyfunc, hm, hver, hval]

/-- Witness for C9: a header whose first field is `"NotBearer"` (and not
`"Bearer"`) still reaches the wrapped handler when the second field is a valid
token. -/
theorem jwtMiddleware_first_token_ignored_witness :
    ("NotBearer" : String) ≠ "Bearer" ∧
    JWTMiddleware jwtEnvAccepting "s" ⟨"NotBearer tok"⟩ =
      ⟨.handled [("user", "u1")], ["tok"]⟩ :=
  ⟨by decide,
   jwtMiddleware_first_token_ignored jwtEnvAccepting "s" ⟨"NotBearer tok"⟩
     "NotBearer" "tok" ⟨.hmac, [("user", "u1")]⟩ (by decide) rfl rfl rfl rfl⟩

/-! ## Claims about HandlerFuncErrorHandling -/

/-- C4 (amended): for every wrapped handler invocation terminating in a panic,
`HandlerFuncErrorHandling` appends exactly one 500 response whose message is
the panic value's descriptive text when it is an error or a string, and the
generic text `"unknown error ocurred"` (as spelled in the source) for any
other panic value. -/
theorem handlerFuncErrorHandling_panic_message (next : Handler) (r : Request) :
    (∀ m, (next r).2 = some (.err m) →
      HandlerFuncErrorHandling next r = (next r).1 ++ [⟨500, m⟩]) ∧
    (∀ s, (next r).2 = some (.str s) →
      HandlerFuncErrorHandling next r = (next r).1 ++ [⟨500, s⟩]) ∧
    ((next r).2 = some .other →
      HandlerFuncErrorHandling next r =
        (next r).1 ++ [⟨500, "unknown error ocurred"⟩]) := by
  refine ⟨fun m h => ?_, fun s h => ?_, fun h => ?_⟩ <;>
    · unfold HandlerFuncErrorHandling
      simp [h]

/-- Witness for C4's amended theorem: a handler panicking with an error of
text `"boom"` yields a 500 response with that text after its own writes; one
panicking with a non-error, non-string value yields the generic message. -/
theorem handlerFuncErrorHandling_panic_message_witness :
    HandlerFuncErrorHandling handlerPanicErr ⟨""⟩ =
        [⟨200, "ok"⟩, ⟨500, "boom"⟩] ∧
    HandlerFuncErrorHandling handlerPanicOther ⟨""⟩ =
        [⟨500, "unknown error ocurred"⟩] :=
  ⟨(handlerFuncErrorHandling_panic_message handlerPanicErr ⟨""⟩).1 "boom" rfl,
   (handlerFuncErrorHandling_panic_message handlerPanicOther ⟨""⟩).2.2 rfl⟩

/-- Counterexample for C4 as stated: for a panic value that is neither an
error nor a string, the emitted generic message is the source's
`"unknown error ocurred"`, not the claimed `"unknown error occurred"`. -/
theorem handlerFuncErrorHandling_generic_message_cex :
    HandlerFuncErrorHandling handlerPanicOther ⟨""⟩ =
        [⟨500, "unknown error ocurred"⟩] ∧
    HandlerFuncErrorHandling handlerPanicOther ⟨""⟩ ≠
        [⟨500, "unknown error occurred"⟩] := by
  constructor
  · decide
  · decide

/-- C10: for every wrapped handler invocation that returns normally,
`HandlerFuncErrorHandling` leaves the handler's response writes unchanged and
emits no 500 body. -/
theorem handlerFuncErrorHandling_normal_frame (next : Handler) (r : Request)
    (h : (next r).2 = none) :
    HandlerFuncErrorHandling next r = (next r).1 := by
  unfold HandlerFuncErrorHandling
  simp [h]

/-- Witness for C10: a normally returning handler's single 200 write is the
whole response. -/
theorem handlerFuncErrorHandling_normal_frame_witness :
    HandlerFuncErrorHandling handlerNormal ⟨""⟩ = [⟨200, "ok"⟩] :=
  handlerFuncErrorHandling_normal_frame handlerNormal ⟨""⟩ rfl

/-! ## Claims about the Mongo repository adapter -/

/-- C2: for every malformed (non-convertible) identifier string, `GetByID`,
`Update` and `Delete` each fail with `InvalidIdentifierError` (carrying the
driver's conversion error text) and perform no database call at all: the
database-call trace is empty. -/
theorem repo_invalid_identifier_no_db_call {α : Type} (env : MongoEnv α)
    (ID : String) (entity : α) (h : isValidObjectIDHex ID = false) :
    MongoRepository.GetByID env ID =
        ([], .error (.invalidID "the provided hex string is not a valid ObjectID")) ∧
    MongoRepository.Update env ID entity =
        ([], some (.invalidID "the provided hex string is not a valid ObjectID")) ∧
    MongoRepository.Delete env ID =
        ([], some (.invalidID "the provided hex string is not a valid ObjectID")) := by
  unfold MongoRepository.GetByID MongoRepository.Update MongoRepository.Delete
    ObjectIDFromHex
  simp [h]

/-- Witness for C2: the identifier `"invalid-id"` (from the test suite) is
rejected by all three operations with an empty database-call trace. -/
theorem repo_invalid_identifier_no_db_call_witness :
    MongoRepository.GetByID mongoEnvAllOk "invalid-id" =
        ([], .error (.invalidID "the provided hex string is not a valid ObjectID")) ∧
    MongoRepository.Update mongoEnvAllOk "invalid-id" () =
        ([], some (.invalidID "the provided hex string is not a valid ObjectID")) ∧
    MongoRepository.Delete mongoEnvAllOk "invalid-id" =
        ([], some (.invalidID "the provided hex string is not a valid ObjectID")) :=
  repo_invalid_identifier_no_db_call mongoEnvAllOk "invalid-id" () (by decide)

/-- C1 (amended): for every `Update` call with a well-formed identifier where
the driver reports the operation succeeded but modified zero documents — even
when the document existed (matched count one) — `Update` IS treated as
not-found: it returns `NotFoundError` (`mongo.ErrNoDocuments`). -/
theorem update_zero_modified_notFound {α : Type} (env : MongoEnv α)
    (ID : String) (entity : α) (result : UpdateResult)
    (hid : isValidObjectIDHex ID = true)
    (hupd : env.updateOne ID.data entity = .ok result)
    (hmod : result.modifiedCount = 0) :
    MongoRepository.Update env ID entity =
        ([.updateOne ID.data], some .noDocuments) := by
  unfold MongoRepository.Update ObjectIDFromHex
  simp [hid, hupd, hmod]

/-- Witness for C1's amended theorem: on the well-formed identifier from the
spec's scenario, with a driver reply of one matched and zero modified
documents, `Update` returns `NotFoundError`. -/
theorem update_zero_modified_notFound_witness :
    MongoRepository.Update mongoEnvUnchangedUpdate "507f191e810c19729de860ea" () =
        ([.updateOne "507f191e810c19729de860ea".data], some .noDocuments) :=
  update_zero_modified_notFound mongoEnvUnchangedUpdate "507f191e810c19729de860ea"
    () ⟨0, 1⟩ (by decide) rfl rfl

/-- Counterexample for C1 as stated: at the well-formed identifier
`"507f191e810c19729de860ea"`, with a driver reply reporting success, one
matched document (the document existed) and zero modified documents,
`Update` does return `NotFoundError`. -/
theorem update_unchanged_value_cex :
    (MongoRepository.Update mongoEnvUnchangedUpdate
        "507f191e810c19729de860ea" ()).2 = some RepoError.noDocuments := by
  decide

/-- C3: for every `Delete` call with a well-formed identifier where the driver
reports success but zero documents removed, `Delete` returns `NotFoundError`
(`mongo.ErrNoDocuments`) rather than success. -/
theorem delete_zero_deleted_notFound {α : Type} (env : MongoEnv α)
    (ID : String) (result : DeleteResult)
    (hid : isValidObjectIDHex ID = true)
    (hdel : env.deleteOne ID.data = .ok result)
    (hcount : result.deletedCount = 0) :
    MongoRepository.Delete env ID =
        ([.deleteOne ID.data], some .noDocuments) := by
  unfold MongoRepository.Delete ObjectIDFromHex
  simp [hid, hdel, hcount]

/-- Witness for C3: on a well-formed identifier with a driver reply of zero
removed documents, `Delete` returns `NotFoundError`. -/
theorem delete_zero_deleted_notFound_witness :
    MongoRepository.Delete mongoEnvZeroDelete "507f191e810c19729de860ea" =
        ([.deleteOne "507f191e810c19729de860ea".data], some .noDocuments) :=
  delete_zero_deleted_notFound mongoEnvZeroDelete "507f191e810c19729de860ea"
    ⟨0⟩ (by decide) rfl rfl
